import Mathlib

/-!
Shallow embedding of scripts/network_scanner.py: the concurrent port-probing
engine (port-spec parsing in main, scan_port, scan_host, and the JSON report
shape written by json.dump). The socket layer is modelled as an oracle
parameter; CPython facts the script relies on are modelled explicitly where a
property depends on them (connect_ex resolves the host first and raises
gaierror, a socket.error, when resolution fails; only then does it check the
port and raise OverflowError, not a socket.error, for a port outside
0..65535; ThreadPoolExecutor raises ValueError for max_workers <= 0 before
any task is submitted).
-/

/-- Values that appear in the dictionaries the scanner builds: Python ints,
strings, and None. -/
inductive PyVal where
  | int (n : Int)
  | str (s : String)
  | none_
deriving DecidableEq, Repr

/-- Exceptions that can escape the modelled code paths: ValueError (from int()
on a bad token, tuple unpacking, or ThreadPoolExecutor max_workers <= 0) and
OverflowError (from connect_ex given a port outside 0..65535). -/
inductive PyExc where
  | valueError
  | overflowError
deriving DecidableEq, Repr

/-- Outcome of one connect_ex call: gaierror is a failure of the
name-resolution step, which CPython runs before it checks the port argument;
gaierror is a subclass of socket.error. Otherwise resolution succeeded and
the call either returns an error code (0 means connected) or raises some
other socket.error (timeout, refusal, unreachable). -/
inductive SockOutcome where
  | code (c : Int)
  | sockError
  | gaierror
deriving DecidableEq, Repr

/-- The network, abstracted: what connect_ex does for a given host, port, and
timeout. -/
abbrev Net := String → Int → Rat → SockOutcome

/-- A Python dict with string keys, as an ordered association list. -/
abbrev PortDict := List (String × PyVal)

/-- COMMON_PORTS from network_scanner.py lines 30-47, in the dict's insertion
order (the key order list(COMMON_PORTS.keys()) yields). -/
def COMMON_PORTS : List (Int × String) :=
  [(21, "FTP"), (22, "SSH"), (23, "Telnet"), (25, "SMTP"), (53, "DNS"),
   (80, "HTTP"), (110, "POP3"), (143, "IMAP"), (443, "HTTPS"), (445, "SMB"),
   (993, "IMAPS"), (995, "POP3S"), (3306, "MySQL"), (3389, "RDP"),
   (5432, "PostgreSQL"), (8080, "HTTP-Proxy")]

/-- The closed-port dict of line 87: status closed, service explicitly None. -/
def closedDict (port : Int) : PortDict :=
  [("port", PyVal.int port), ("status", PyVal.str "closed"),
   ("service", PyVal.none_)]

/-- scan_port (lines 59-87). connect_ex resolves the host first: a
resolution failure raises gaierror, a socket.error, which the except at line
84 swallows, reaching the closed dict even for an out-of-range port. When
the host resolves, connect_ex then checks the port and raises OverflowError
for a port outside 0..65535; that is not a socket.error, so it escapes.
Otherwise code 0 builds the open dict with service = COMMON_PORTS.get(port,
the string Unknown); a nonzero code falls through to the closed dict, and a
raised socket.error is swallowed by the except and also reaches the closed
dict. -/
def scan_port (net : Net) (host : String) (port : Int) (timeout : Rat) :
    Except PyExc PortDict :=
  match net host port timeout with
  | .gaierror => .ok (closedDict port)
  | .sockError =>
      if port < 0 ∨ 65535 < port then .error .overflowError
      else .ok (closedDict port)
  | .code c =>
      if port < 0 ∨ 65535 < port then .error .overflowError
      else if c = 0 then
        .ok [("port", PyVal.int port), ("status", PyVal.str "open"),
             ("service", PyVal.str ((COMMON_PORTS.lookup port).getD "Unknown"))]
      else .ok (closedDict port)

/-- Lines 101-102: a None port list resolves to list(COMMON_PORTS.keys()); an
explicit list is used as given. -/
def resolvePorts : Option (List Int) → List Int
  | none => COMMON_PORTS.map Prod.fst
  | some ps => ps

/-- The loop body test of line 119: result with status equal to the string
open. -/
def isOpenDict (d : PortDict) : Bool :=
  decide (d.lookup "status" = some (PyVal.str "open"))

/-- One scan_port call per port of the given completion order, stopping at the
first probe whose future re-raises (future.result() at line 118 re-raises the
probe's exception into the as_completed loop). scan_host calls scan_port with
the default timeout 1.0. -/
def probeAll (net : Net) (host : String) : List Int → Except PyExc (List PortDict)
  | [] => .ok []
  | p :: rest =>
    match scan_port net host p 1 with
    | .error e => .error e
    | .ok d =>
      match probeAll net host rest with
      | .error e => .error e
      | .ok ds => .ok (d :: ds)

/-- The results dict of lines 104-109 and 114-125: host and scan_time as
recorded at scan start, open_ports in completion order, closed_ports as the
count of non-open outcomes. -/
structure ScanResults where
  host : String
  scan_time : String
  open_ports : List PortDict
  closed_ports : Nat
deriving DecidableEq, Repr

/-- scan_host (lines 89-125). A None port list resolves to the COMMON_PORTS
keys first. ThreadPoolExecutor(max_workers=threads) raises ValueError when
threads <= 0 before any probe is submitted; otherwise every resolved port is
probed once and the as_completed loop appends open results to open_ports and
counts the rest into closed_ports. The reorder argument models the
nondeterministic completion order of the futures: it rearranges the resolved
list, and the theorems assume its output is a permutation of its input. -/
def scan_host (net : Net) (host : String) (ports : Option (List Int))
    (threads : Int) (scanTime : String) (reorder : List Int → List Int) :
    Except PyExc ScanResults :=
  let resolved := resolvePorts ports
  if threads ≤ 0 then .error .valueError
  else
    match probeAll net host (reorder resolved) with
    | .error e => .error e
    | .ok dicts =>
        .ok ⟨host, scanTime, dicts.filter isOpenDict,
             dicts.countP (fun d => !isOpenDict d)⟩

/-- Accumulate decimal digits; any non-digit character means int() raises
ValueError. -/
def digitsToNatAux (acc : Nat) : List Char → Option Nat
  | [] => some acc
  | c :: rest =>
    if c.isDigit then digitsToNatAux (acc * 10 + (c.toNat - 48)) rest
    else none

/-- A nonempty all-digit token as a Nat; anything else fails. -/
def digitsToNat : List Char → Option Nat
  | [] => none
  | cs => digitsToNatAux 0 cs

/-- Python int() on the token shapes the scanner can receive: an optional
leading minus sign followed by one or more digits parses, anything else
raises ValueError. -/
def pyInt : List Char → Option Int
  | '-' :: rest => (digitsToNat rest).map (fun n => -(n : Int))
  | cs => (digitsToNat cs).map Int.ofNat

/-- str.split(sep) for a one-character separator: adjacent separators and
edge separators produce empty tokens, exactly as in Python. -/
def splitOnChar (sep : Char) : List Char → List (List Char)
  | [] => [[]]
  | c :: rest =>
    let r := splitOnChar sep rest
    if c = sep then [] :: r
    else
      match r with
      | t :: ts => (c :: t) :: ts
      | [] => [[c]]

/-- Map a fallible function over a list, failing on the first failure. -/
def mapOpt (f : α → Option β) : List α → Option (List β)
  | [] => some []
  | a :: l =>
    match f a, mapOpt f l with
    | some b, some bs => some (b :: bs)
    | _, _ => none

/-- list(range(start, stop + 1)): empty when start exceeds stop. -/
def intRange (start stop : Int) : List Int :=
  (List.range (stop + 1 - start).toNat).map (fun i => start + (i : Int))

/-- The port parsing of main, lines 174-181. A falsy (absent or empty) spec
leaves ports as None. A spec containing a dash is split on the dash and
unpacked as exactly two ints (a bad token or a wrong token count raises
ValueError), yielding list(range(start, end + 1)) even when start exceeds
end. Otherwise the spec is split on commas and each token passed to int(),
raising ValueError on the first bad token. -/
def parse_ports : Option String → Except PyExc (Option (List Int))
  | none => .ok none
  | some s =>
    let cs := s.toList
    if cs = [] then .ok none
    else if cs.contains '-' then
      match splitOnChar '-' cs with
      | [a, b] =>
        match pyInt a, pyInt b with
        | some st, some en => .ok (some (intRange st en))
        | _, _ => .error .valueError
      | _ => .error .valueError
    else
      match mapOpt pyInt (splitOnChar ',' cs) with
      | some ps => .ok (some ps)
      | none => .error .valueError

/-- The main pipeline of lines 170-184: parse the port spec, then run the
scan; a ValueError from parsing aborts before scan_host is ever entered. -/
def run_scan (net : Net) (host : String) (spec : Option String) (threads : Int)
    (scanTime : String) (reorder : List Int → List Int) :
    Except PyExc ScanResults :=
  match parse_ports spec with
  | .error e => .error e
  | .ok ports => scan_host net host ports threads scanTime reorder

/-- The JSON values json.dump can emit for this report. -/
inductive Json where
  | null
  | str (s : String)
  | num (n : Int)
  | arr (l : List Json)
  | obj (m : List (String × Json))

/-- How json.dump renders each scalar dict value. -/
def pyValToJson : PyVal → Json
  | PyVal.int n => Json.num n
  | PyVal.str s => Json.str s
  | PyVal.none_ => Json.null

/-- How json.dump renders one open-port dict, keys in insertion order. -/
def dictToJson (d : PortDict) : Json :=
  Json.obj (d.map (fun kv => (kv.1, pyValToJson kv.2)))

/-- to_structured_form: the document json.dump(results, f) writes at lines
190-192, with the four top-level keys in the results dict's insertion
order. -/
def resultsToJson (r : ScanResults) : Json :=
  Json.obj [("host", Json.str r.host), ("scan_time", Json.str r.scan_time),
            ("open_ports", Json.arr (r.open_ports.map dictToJson)),
            ("closed_ports", Json.num (Int.ofNat r.closed_ports))]

/-- Reading a scalar JSON value back into the dict value it came from. -/
def jsonToPyVal : Json → Option PyVal
  | Json.null => some PyVal.none_
  | Json.str s => some (PyVal.str s)
  | Json.num n => some (PyVal.int n)
  | _ => none

/-- Reading one serialized open-port record back into its dict. -/
def dictFromJson : Json → Option PortDict
  | Json.obj m => mapOpt (fun kv => (jsonToPyVal kv.2).map (fun v => (kv.1, v))) m
  | _ => none

/-- Modelled from the spec: the repository serializes the report (json.dump
at lines 190-192) but contains no deserializer; section 4.5 of the spec
requires the structured form to round-trip losslessly back into an
equivalent report with the open_ports order preserved verbatim, so the
parse-back direction is modelled here from those words. -/
def parseResults : Json → Option ScanResults
  | Json.obj [("host", Json.str h), ("scan_time", Json.str t),
              ("open_ports", Json.arr l), ("closed_ports", Json.num c)] =>
    match mapOpt dictFromJson l, c with
    | some dicts, Int.ofNat n => some ⟨h, t, dicts, n⟩
    | _, _ => none
  | _ => none

theorem probeAll_length (net : Net) (host : String) :
    ∀ (l : List Int) (ds : List PortDict),
      probeAll net host l = .ok ds → ds.length = l.length := by
  intro l
  induction l with
  | nil =>
    intro ds h
    simp [probeAll] at h
    simp [← h]
  | cons p rest ih =>
    intro ds h
    simp only [probeAll] at h
    cases hsp : scan_port net host p 1 with
    | error e => rw [hsp] at h; exact absurd h (by simp)
    | ok d =>
      rw [hsp] at h
      cases hpa : probeAll net host rest with
      | error e => rw [hpa] at h; exact absurd h (by simp)
      | ok ds2 =>
        rw [hpa] at h
        simp at h
        subst h
        simp [ih ds2 hpa]

theorem length_filter_add_countP_not (p : α → Bool) (l : List α) :
    (l.filter p).length + l.countP (fun a => !p a) = l.length := by
  induction l with
  | nil => rfl
  | cons a l ih =>
    cases hp : p a <;>
      simp [List.filter_cons, List.countP_cons, hp, ← ih] <;> omega

/-- C1: for every completed scan, the closed count plus the number of open
results equals the number of resolved ports: each requested port contributes
exactly one outcome, appended to open_ports when open and counted into
closed_ports otherwise. -/
theorem scan_report_invariant (net : Net) (host scanTime : String)
    (ports : Option (List Int)) (threads : Int)
    (reorder : List Int → List Int) (r : ScanResults)
    (hperm : (reorder (resolvePorts ports)).Perm (resolvePorts ports))
    (hok : scan_host net host ports threads scanTime reorder = .ok r) :
    r.closed_ports + r.open_ports.length = (resolvePorts ports).length := by
  unfold scan_host at hok
  by_cases ht : threads ≤ 0
  · simp [ht] at hok
  · simp only [ht, if_false] at hok
    cases hpa : probeAll net host (reorder (resolvePorts ports)) with
    | error e => rw [hpa] at hok; exact absurd hok (by simp)
    | ok dicts =>
      rw [hpa] at hok
      simp at hok
      subst hok
      simp only []
      rw [Nat.add_comm, length_filter_add_countP_not,
          probeAll_length net host _ _ hpa, hperm.length_eq]

/-- Witness for C1 at a concrete run: two ports, both failing with a socket
error, completing in reverse order, with one worker. -/
theorem scan_report_invariant_witness :
    (⟨"h", "t", [], 2⟩ : ScanResults).closed_ports +
      (⟨"h", "t", [], 2⟩ : ScanResults).open_ports.length =
      (resolvePorts (some [80, 443])).length :=
  scan_report_invariant (fun _ _ _ => SockOutcome.sockError) "h" "t"
    (some [80, 443]) 1 List.reverse ⟨"h", "t", [], 2⟩ (by decide) (by rfl)

/-- C2 counterexample: at port 70000 (out of range) the probe does not fold
the failure into a closed outcome; connect_ex raises OverflowError, which
except socket.error does not catch, so the probe fails outward. -/
theorem probe_raises_cex :
    scan_port (fun _ _ _ => SockOutcome.sockError) "localhost" 70000 1 =
      .error .overflowError := by
  rfl

/-- C2 amended: for every host, every timeout, and every port in 0..65535 the
probe never fails outward: it always returns a dict, and every socket-level
error or nonzero connect code is folded into the closed outcome. Ports
outside 0..65535 instead raise OverflowError to the caller. -/
theorem probe_total_in_range (net : Net) (host : String) (port : Int) (t : Rat)
    (h1 : 0 ≤ port) (h2 : port ≤ 65535) :
    (∃ d, scan_port net host port t = .ok d) ∧
    (net host port t = SockOutcome.sockError →
      scan_port net host port t = .ok (closedDict port)) ∧
    (∀ c : Int, net host port t = SockOutcome.code c → c ≠ 0 →
      scan_port net host port t = .ok (closedDict port)) := by
  have hc : ¬(port < 0 ∨ 65535 < port) := by omega
  refine ⟨?_, ?_, ?_⟩
  · cases hnet : net host port t with
    | code c =>
      by_cases hz : c = 0
      · exact ⟨[("port", PyVal.int port), ("status", PyVal.str "open"),
                ("service", PyVal.str ((COMMON_PORTS.lookup port).getD "Unknown"))],
              by simp [scan_port, hc, hnet, hz]⟩
      · exact ⟨closedDict port, by simp [scan_port, hc, hnet, hz]⟩
    | sockError => exact ⟨closedDict port, by simp [scan_port, hc, hnet]⟩
    | gaierror => exact ⟨closedDict port, by simp [scan_port, hnet]⟩
  · intro hnet
    simp [scan_port, hc, hnet]
  · intro c hnet hz
    simp [scan_port, hc, hnet, hz]

/-- Witness for the amended C2 at host h, port 80, timeout 1, with a network
that raises a socket error. -/
theorem probe_total_in_range_witness :
    (∃ d, scan_port (fun _ _ _ => SockOutcome.sockError) "h" 80 1 = .ok d) ∧
    ((fun _ _ _ => SockOutcome.sockError : Net) "h" 80 1 = SockOutcome.sockError →
      scan_port (fun _ _ _ => SockOutcome.sockError) "h" 80 1 =
        .ok (closedDict 80)) ∧
    (∀ c : Int, (fun _ _ _ => SockOutcome.sockError : Net) "h" 80 1 =
        SockOutcome.code c → c ≠ 0 →
      scan_port (fun _ _ _ => SockOutcome.sockError) "h" 80 1 =
        .ok (closedDict 80)) :=
  probe_total_in_range (fun _ _ _ => SockOutcome.sockError) "h" 80 1
    (by decide) (by decide)

/-- C3 counterexample: port 9999 is not in the catalog, yet an open outcome
for it carries the service key set to the string Unknown, not left unset. -/
theorem unknown_service_cex :
    COMMON_PORTS.lookup 9999 = none ∧
    scan_port (fun _ _ _ => SockOutcome.code 0) "h" 9999 1 =
      .ok [("port", PyVal.int 9999), ("status", PyVal.str "open"),
           ("service", PyVal.str "Unknown")] ∧
    ([("port", PyVal.int 9999), ("status", PyVal.str "open"),
      ("service", PyVal.str "Unknown")] : PortDict).lookup "service" =
      some (PyVal.str "Unknown") := by
  refine ⟨by rfl, by rfl, by rfl⟩

/-- C3 amended: for every in-range port absent from the catalog, a successful
connect yields an open dict whose service value is the string Unknown (the
default of COMMON_PORTS.get), not an absent or null service. -/
theorem unknown_service_string (net : Net) (host : String) (port : Int)
    (t : Rat) (h1 : 0 ≤ port) (h2 : port ≤ 65535)
    (hnc : COMMON_PORTS.lookup port = none)
    (hconn : net host port t = SockOutcome.code 0) :
    scan_port net host port t =
      .ok [("port", PyVal.int port), ("status", PyVal.str "open"),
           ("service", PyVal.str "Unknown")] := by
  have hc : ¬(port < 0 ∨ 65535 < port) := by omega
  simp [scan_port, hc, hconn, hnc]

/-- Witness for the amended C3 at the uncatalogued port 9999. -/
theorem unknown_service_string_witness :
    scan_port (fun _ _ _ => SockOutcome.code 0) "h" 9999 1 =
      .ok [("port", PyVal.int 9999), ("status", PyVal.str "open"),
           ("service", PyVal.str "Unknown")] :=
  unknown_service_string (fun _ _ _ => SockOutcome.code 0) "h" 9999 1
    (by decide) (by decide) (by rfl) (by rfl)

/-- C4 counterexample: the range spec 50-20 with start greater than end does
not fail; it parses to the empty port list. -/
theorem malformed_range_cex : parse_ports (some "50-20") = .ok (some []) := by
  rfl

/-- C4 amended: a comma list with a non-numeric token does raise ValueError
before any probing, for every network and configuration; but a range whose
start exceeds its end does not fail: it resolves to the empty list and the
scan proceeds as an empty scan, returning a report with no open ports and a
zero closed count. -/
theorem malformed_spec_amended :
    (∀ (net : Net) (threads : Int) (scanTime : String)
        (reorder : List Int → List Int),
      run_scan net "h" (some "22,foo") threads scanTime reorder =
        .error .valueError) ∧
    parse_ports (some "50-20") = .ok (some []) ∧
    (∀ (net : Net) (scanTime : String),
      run_scan net "h" (some "50-20") 50 scanTime id =
        .ok ⟨"h", scanTime, [], 0⟩) :=
  ⟨fun _ _ _ _ => rfl, rfl, fun _ _ => rfl⟩

/-- C5 counterexample: the out-of-bounds spec 70000 is accepted by the
parsing step, not rejected before probing. -/
theorem out_of_bounds_cex :
    parse_ports (some "70000") = .ok (some [70000]) := by
  rfl

/-- C5 amended: an out-of-bounds port number passes the parsing step
unchecked and probing begins; the spec is never rejected beforehand. What
happens then depends on the host: when the host resolves (the oracle never
reports a name-resolution failure), connect_ex reaches its port check and
raises OverflowError out of the scan; when the host does not resolve, the
gaierror raised before the port check is caught by except socket.error and
the scan completes with the out-of-bounds port reported closed. -/
theorem out_of_bounds_amended :
    parse_ports (some "70000") = .ok (some [70000]) ∧
    (∀ (net : Net) (scanTime : String),
      (∀ (p : Int) (t : Rat), net "h" p t ≠ SockOutcome.gaierror) →
      run_scan net "h" (some "70000") 50 scanTime id =
        .error .overflowError) ∧
    (∀ (scanTime : String),
      run_scan (fun _ _ _ => SockOutcome.gaierror) "h" (some "70000") 50
        scanTime id = .ok ⟨"h", scanTime, [], 1⟩) := by
  refine ⟨rfl, ?_, fun _ => rfl⟩
  intro net scanTime hres
  have h70 : scan_port net "h" 70000 1 = .error .overflowError := by
    cases hnet : net "h" 70000 1 with
    | gaierror => exact absurd hnet (hres 70000 1)
    | sockError => simp [scan_port, hnet]
    | code c => simp [scan_port, hnet]
  have hprobe : probeAll net "h" [70000] = .error .overflowError := by
    simp only [probeAll, h70]
  show (match probeAll net "h" [70000] with
        | Except.error e => (Except.error e : Except PyExc ScanResults)
        | Except.ok dicts =>
            Except.ok ⟨"h", scanTime, dicts.filter isOpenDict,
                       dicts.countP (fun d => !isOpenDict d)⟩) =
      Except.error PyExc.overflowError
  rw [hprobe]

/-- Witness for the amended C5: its second part applied to a network that
never reports a name-resolution failure. -/
theorem out_of_bounds_amended_witness :
    run_scan (fun _ _ _ => SockOutcome.sockError) "h" (some "70000") 50 "t"
      id = .error .overflowError :=
  out_of_bounds_amended.2.1 (fun _ _ _ => SockOutcome.sockError) "t"
    (fun _ _ h => nomatch h)

/-- C6: a null port specification resolves to exactly the 16 keys of
COMMON_PORTS, in the catalog's fixed insertion order. -/
theorem default_resolution_catalog_keys :
    resolvePorts none = [21, 22, 23, 25, 53, 80, 110, 143, 443, 445, 993,
      995, 3306, 3389, 5432, 8080] ∧
    resolvePorts none = COMMON_PORTS.map Prod.fst ∧
    (resolvePorts none).length = 16 :=
  ⟨rfl, rfl, rfl⟩

/-- C7: every non-positive worker-pool size makes the scan fail with the
ValueError that ThreadPoolExecutor raises for max_workers <= 0, for every
network oracle — so the failure happens before any probe is dispatched. -/
theorem nonpositive_threads_error (net : Net) (host scanTime : String)
    (ports : Option (List Int)) (threads : Int)
    (reorder : List Int → List Int) (h : threads ≤ 0) :
    scan_host net host ports threads scanTime reorder = .error .valueError := by
  simp [scan_host, h]

/-- Witness for C7 at zero workers. -/
theorem nonpositive_threads_error_witness :
    scan_host (fun _ _ _ => SockOutcome.code 0) "h" none 0 "t" id =
      .error .valueError :=
  nonpositive_threads_error (fun _ _ _ => SockOutcome.code 0) "h" "t" none 0 id
    (by decide)

/-- Case analysis on a successful probe: the returned dict is either the
closed dict or the open dict for that port. -/
theorem scan_port_ok_cases (net : Net) (host : String) (port : Int) (t : Rat)
    (d : PortDict) (h : scan_port net host port t = .ok d) :
    d = closedDict port ∨
    d = [("port", PyVal.int port), ("status", PyVal.str "open"),
         ("service", PyVal.str ((COMMON_PORTS.lookup port).getD "Unknown"))] := by
  unfold scan_port at h
  cases hnet : net host port t with
  | gaierror =>
    simp only [hnet] at h
    exact Or.inl (Except.ok.inj h).symm
  | sockError =>
    simp only [hnet] at h
    by_cases hr : port < 0 ∨ 65535 < port
    · rw [if_pos hr] at h
      exact absurd h (by simp)
    · rw [if_neg hr] at h
      exact Or.inl (Except.ok.inj h).symm
  | code c =>
    simp only [hnet] at h
    by_cases hr : port < 0 ∨ 65535 < port
    · rw [if_pos hr] at h
      exact absurd h (by simp)
    · rw [if_neg hr] at h
      by_cases hz : c = 0
      · rw [if_pos hz] at h
        exact Or.inr (Except.ok.inj h).symm
      · rw [if_neg hz] at h
        exact Or.inl (Except.ok.inj h).symm

/-- C10: every dict the probe returns has exactly the keys port, status,
service in that order, and a closed outcome carries the service key
explicitly present with the None value. -/
theorem probe_dict_shape (net : Net) (host : String) (port : Int) (t : Rat)
    (d : PortDict) (h : scan_port net host port t = .ok d) :
    d.map Prod.fst = ["port", "status", "service"] ∧
    (d.lookup "status" = some (PyVal.str "closed") →
      d.lookup "service" = some PyVal.none_) := by
  rcases scan_port_ok_cases net host port t d h with hd | hd
  · subst hd
    exact ⟨rfl, fun _ => rfl⟩
  · subst hd
    refine ⟨rfl, fun hcl => ?_⟩
    have hopen : List.lookup "status"
        ([("port", PyVal.int port), ("status", PyVal.str "open"),
          ("service", PyVal.str ((COMMON_PORTS.lookup port).getD "Unknown"))] :
          PortDict) = some (PyVal.str "open") := rfl
    rw [hopen] at hcl
    exact absurd hcl (by decide)

/-- Witness for C10 at a closed probe of port 80. -/
theorem probe_dict_shape_witness :
    (closedDict 80).map Prod.fst = ["port", "status", "service"] ∧
    ((closedDict 80).lookup "status" = some (PyVal.str "closed") →
      (closedDict 80).lookup "service" = some PyVal.none_) :=
  probe_dict_shape (fun _ _ _ => SockOutcome.sockError) "h" 80 1
    (closedDict 80) rfl

theorem entry_round (kv : String × PyVal) :
    ((jsonToPyVal (pyValToJson kv.2)).map (fun v => (kv.1, v))) = some kv := by
  obtain ⟨k, v⟩ := kv
  cases v <;> rfl

theorem dictEntries_round (d : PortDict) :
    mapOpt (fun kv => (jsonToPyVal kv.2).map (fun v => (kv.1, v)))
      (d.map (fun kv => (kv.1, pyValToJson kv.2))) = some d := by
  induction d with
  | nil => rfl
  | cons kv rest ih =>
    obtain ⟨k, v⟩ := kv
    simp only [List.map_cons, mapOpt]
    rw [ih]
    cases v <;> rfl

theorem dict_round (d : PortDict) : dictFromJson (dictToJson d) = some d :=
  dictEntries_round d

theorem dictList_round (l : List PortDict) :
    mapOpt dictFromJson (l.map dictToJson) = some l := by
  induction l with
  | nil => rfl
  | cons d rest ih =>
    simp only [List.map_cons, mapOpt]
    rw [dict_round d, ih]

/-- C8: serializing a scan report to its structured form and parsing it back
yields the identical host, scan time, closed count, and the open_ports
sequence element for element in the original order. -/
theorem serialization_round_trip (r : ScanResults) :
    parseResults (resultsToJson r) = some r := by
  obtain ⟨h, t, ops, c⟩ := r
  show parseResults (Json.obj [("host", Json.str h), ("scan_time", Json.str t),
      ("open_ports", Json.arr (ops.map dictToJson)),
      ("closed_ports", Json.num (Int.ofNat c))]) = some ⟨h, t, ops, c⟩
  simp [parseResults, dictList_round]
